import Mathlib

/-!
Shallow embedding of the remote-shell (terminal) subsystem of the web panel:
the WebSocket handler `terminal_websocket`, the bridge loop
`_bridge_pty_to_websocket` and the resize controller `_resize_pty` from
`src/webui/routes/terminal.py`, together with the permission gate
`terminal_allowed` from `src/webui/auth.py`.

External collaborators (the pty master descriptor, the child process, the
WebSocket object, ioctl) are modelled as schedule inputs: each loop iteration
receives the outcome the environment would produce at that point.  The Python
standard-library functions the handler relies on (`json.loads`,
`str.encode("utf-8")`, `bytes.decode("utf-8", errors="replace")`,
`struct.pack("HHHH", ...)`) are embedded as executable Lean functions below.
-/

namespace TerminalBridge

/-! ### Characters used in the protocol -/

def lbrace : Char := Char.ofNat 123

def rbrace : Char := Char.ofNat 125

/-- The Unicode replacement character U+FFFD. -/
def replChar : Char := Char.ofNat 0xFFFD

/-! ### UTF-8 encoding, as Python `str.encode("utf-8")` -/

/-- UTF-8 bytes of one Unicode scalar value. -/
def utf8EncodeChar (c : Char) : List Nat :=
  let n := c.toNat
  if n < 0x80 then [n]
  else if n < 0x800 then [0xC0 + n / 0x40, 0x80 + n % 0x40]
  else if n < 0x10000 then
    [0xE0 + n / 0x1000, 0x80 + n / 0x40 % 0x40, 0x80 + n % 0x40]
  else
    [0xF0 + n / 0x40000, 0x80 + n / 0x1000 % 0x40,
     0x80 + n / 0x40 % 0x40, 0x80 + n % 0x40]

/-- Python `s.encode("utf-8")`: the byte sequence of a text frame. -/
def encodeUtf8 (s : String) : List Nat :=
  (s.data.map utf8EncodeChar).flatten

/-! ### UTF-8 decoding with replacement, as Python
`bytes.decode("utf-8", errors="replace")` (one U+FFFD per maximal subpart
of an ill-formed sequence). -/

/-- Is `c` a UTF-8 continuation byte in the given inclusive range? -/
def contIn (lo hi c : Nat) : Bool := lo ≤ c && c ≤ hi

/-- Decode one unit starting at lead byte `b`: the produced character (the
scalar, or U+FFFD for an ill-formed maximal subpart) and the unconsumed
remainder of `rest`. -/
def utf8Step (b : Nat) (rest : List Nat) : Char × List Nat :=
  if b < 0x80 then (Char.ofNat b, rest)
  else if 0xC2 ≤ b && b ≤ 0xDF then
    match rest with
    | [] => (replChar, [])
    | c1 :: r1 =>
      if contIn 0x80 0xBF c1 then
        (Char.ofNat ((b - 0xC0) * 0x40 + (c1 - 0x80)), r1)
      else (replChar, c1 :: r1)
  else if 0xE0 ≤ b && b ≤ 0xEF then
    let lo1 := if b = 0xE0 then 0xA0 else 0x80
    let hi1 := if b = 0xED then 0x9F else 0xBF
    match rest with
    | [] => (replChar, [])
    | c1 :: r1 =>
      if contIn lo1 hi1 c1 then
        match r1 with
        | [] => (replChar, [])
        | c2 :: r2 =>
          if contIn 0x80 0xBF c2 then
            (Char.ofNat ((b - 0xE0) * 0x1000 + (c1 - 0x80) * 0x40 + (c2 - 0x80)), r2)
          else (replChar, c2 :: r2)
      else (replChar, c1 :: r1)
  else if 0xF0 ≤ b && b ≤ 0xF4 then
    let lo1 := if b = 0xF0 then 0x90 else 0x80
    let hi1 := if b = 0xF4 then 0x8F else 0xBF
    match rest with
    | [] => (replChar, [])
    | c1 :: r1 =>
      if contIn lo1 hi1 c1 then
        match r1 with
        | [] => (replChar, [])
        | c2 :: r2 =>
          if contIn 0x80 0xBF c2 then
            match r2 with
            | [] => (replChar, [])
            | c3 :: r3 =>
              if contIn 0x80 0xBF c3 then
                (Char.ofNat ((b - 0xF0) * 0x40000 + (c1 - 0x80) * 0x1000 +
                  (c2 - 0x80) * 0x40 + (c3 - 0x80)), r3)
              else (replChar, c3 :: r3)
          else (replChar, c2 :: r2)
      else (replChar, c1 :: r1)
  else (replChar, rest)

/-- Fuel-indexed decoding loop; each step consumes at least the lead byte,
so fuel equal to the byte count never runs out. -/
def utf8DecodeGo : Nat → List Nat → List Char
  | 0, _ => []
  | _, [] => []
  | fuel + 1, b :: rest =>
    let s := utf8Step b rest
    s.1 :: utf8DecodeGo fuel s.2

/-- Python `bs.decode("utf-8", errors="replace")`. -/
def decodeUtf8Replace (bs : List Nat) : String :=
  String.mk (utf8DecodeGo bs.length bs)

/-! ### JSON values and `json.loads` -/

/-- A parsed JSON value, as produced by Python `json.loads`.  Non-integral
numbers (a fraction or exponent part, or NaN/Infinity) become Python floats;
the resize path only ever asks whether a value is an integer in a range, so
floats carry their raw literal text and no computed value. -/
inductive Json where
  | jnull
  | jbool (b : Bool)
  | jint (n : Int)
  | jfloat (raw : String)
  | jstr (s : String)
  | jarr (elems : List Json)
  | jobj (members : List (String × Json))

/-- JSON whitespace accepted by the Python decoder. -/
def isJsonWs (c : Char) : Bool :=
  c = ' ' || c = Char.ofNat 0x09 || c = Char.ofNat 0x0A || c = Char.ofNat 0x0D

def skipWs (cs : List Char) : List Char := cs.dropWhile isJsonWs

/-- Consume an expected literal such as `true`, `false`, `null`. -/
def expectChars : List Char → List Char → Option (List Char)
  | [], cs => some cs
  | _ :: _, [] => none
  | l :: ls, c :: cs => if c = l then expectChars ls cs else none

/-- Value of one hexadecimal digit of a `\uXXXX` escape (0-9, a-f, A-F). -/
def hexVal (c : Char) : Option Nat :=
  let n := c.toNat
  if 48 ≤ n ∧ n ≤ 57 then some (n - 48)
  else if 97 ≤ n ∧ n ≤ 102 then some (n - 97 + 10)
  else if 65 ≤ n ∧ n ≤ 70 then some (n - 65 + 10)
  else none

/-- Four hex digits of a `\uXXXX` escape. -/
def hex4 : List Char → Option (Nat × List Char)
  | a :: b :: c :: d :: rest =>
    match hexVal a, hexVal b, hexVal c, hexVal d with
    | some x, some y, some z, some w =>
      some (0x1000 * x + 0x100 * y + 0x10 * z + w, rest)
    | _, _, _, _ => none
  | _ => none

/-- Body of a JSON string after the opening quote.  Python keeps lone
surrogates from `\u` escapes in the resulting str; a Lean `Char` cannot hold
one, so a lone surrogate decodes to U+FFFD here — such a string can never
equal `"resize"` either way, so the bridge model is unaffected. -/
def jstring : Nat → List Char → List Char → Option (String × List Char)
  | 0, _, _ => none
  | _, _, [] => none
  | fuel + 1, acc, c :: rest =>
    if c = '"' then some (String.mk acc.reverse, rest)
    else if c = '\\' then
      match rest with
      | [] => none
      | e :: rest2 =>
        if e = '"' then jstring fuel ('"' :: acc) rest2
        else if e = '\\' then jstring fuel ('\\' :: acc) rest2
        else if e = '/' then jstring fuel ('/' :: acc) rest2
        else if e = 'b' then jstring fuel (Char.ofNat 0x08 :: acc) rest2
        else if e = 'f' then jstring fuel (Char.ofNat 0x0C :: acc) rest2
        else if e = 'n' then jstring fuel (Char.ofNat 0x0A :: acc) rest2
        else if e = 'r' then jstring fuel (Char.ofNat 0x0D :: acc) rest2
        else if e = 't' then jstring fuel (Char.ofNat 0x09 :: acc) rest2
        else if e = 'u' then
          match hex4 rest2 with
          | none => none
          | some (n, rest3) =>
            if 0xD800 ≤ n && n ≤ 0xDBFF then
              match rest3 with
              | '\\' :: 'u' :: rest4 =>
                match hex4 rest4 with
                | some (m, rest5) =>
                  if 0xDC00 ≤ m && m ≤ 0xDFFF then
                    jstring fuel
                      (Char.ofNat (0x10000 + (n - 0xD800) * 0x400 + (m - 0xDC00)) :: acc)
                      rest5
                  else jstring fuel (replChar :: acc) rest3
                | none => jstring fuel (replChar :: acc) rest3
              | _ => jstring fuel (replChar :: acc) rest3
            else if 0xDC00 ≤ n && n ≤ 0xDFFF then
              jstring fuel (replChar :: acc) rest3
            else jstring fuel (Char.ofNat n :: acc) rest3
        else none
    else if c.toNat < 0x20 then none
    else jstring fuel (c :: acc) rest

def isDigit (c : Char) : Bool := 48 ≤ c.toNat && c.toNat ≤ 57

/-- Leading run of decimal digits: the digits and the remainder. -/
def takeDigits (cs : List Char) : List Char × List Char :=
  (cs.takeWhile isDigit, cs.dropWhile isDigit)

def digitsToNat (ds : List Char) : Nat :=
  ds.foldl (fun a c => 10 * a + (c.toNat - 48)) 0

/-- A JSON number, following the decoder's NUMBER_RE semantics: the integer
part is `0` or a nonzero-led digit run; a fraction or exponent part is
consumed only when complete, and its presence makes the value a float. -/
def jnumber (cs : List Char) : Option (Json × List Char) :=
  let sign : Bool × List Char :=
    match cs with
    | '-' :: rest => (true, rest)
    | _ => (false, cs)
  match sign.2 with
  | [] => none
  | c :: rest =>
    if ¬ isDigit c then none
    else
      let ip : List Char × List Char :=
        if c = '0' then ([c], rest) else takeDigits (c :: rest)
      let frac : List Char × List Char :=
        match ip.2 with
        | '.' :: r =>
          let d := takeDigits r
          if d.1.isEmpty then ([], ip.2) else ('.' :: d.1, d.2)
        | _ => ([], ip.2)
      let expPart : List Char × List Char :=
        match frac.2 with
        | e :: r =>
          if e = 'e' || e = 'E' then
            let se : List Char × List Char :=
              match r with
              | s :: r2 => if s = '+' || s = '-' then ([s], r2) else ([], r)
              | [] => ([], r)
            let d := takeDigits se.2
            if d.1.isEmpty then ([], frac.2) else (e :: (se.1 ++ d.1), d.2)
          else ([], frac.2)
        | [] => ([], frac.2)
      let isFloat := ¬ frac.1.isEmpty || ¬ expPart.1.isEmpty
      let lit : List Char :=
        (if sign.1 then ['-'] else []) ++ ip.1 ++ frac.1 ++ expPart.1
      if isFloat then some (Json.jfloat (String.mk lit), expPart.2)
      else
        let v : Int := Int.ofNat (digitsToNat ip.1)
        some (Json.jint (if sign.1 then -v else v), expPart.2)

mutual

/-- One JSON value (after skipping leading whitespace). -/
def jvalue : Nat → List Char → Option (Json × List Char)
  | 0, _ => none
  | fuel + 1, cs =>
    match skipWs cs with
    | [] => none
    | c :: rest =>
      if c = lbrace then
        match skipWs rest with
        | r :: rest2 =>
          if r = rbrace then some (Json.jobj [], rest2)
          else
            match jmembers fuel [] (r :: rest2) with
            | some (ms, rest3) => some (Json.jobj ms, rest3)
            | none => none
        | [] => none
      else if c = '[' then
        match skipWs rest with
        | ']' :: rest2 => some (Json.jarr [], rest2)
        | other => jelems fuel [] other
      else if c = '"' then
        match jstring (rest.length + 1) [] rest with
        | some (s, rest2) => some (Json.jstr s, rest2)
        | none => none
      else if c = 't' then
        match expectChars ['r', 'u', 'e'] rest with
        | some rest2 => some (Json.jbool true, rest2)
        | none => none
      else if c = 'f' then
        match expectChars ['a', 'l', 's', 'e'] rest with
        | some rest2 => some (Json.jbool false, rest2)
        | none => none
      else if c = 'n' then
        match expectChars ['u', 'l', 'l'] rest with
        | some rest2 => some (Json.jnull, rest2)
        | none => none
      else if c = 'N' then
        match expectChars ['a', 'N'] rest with
        | some rest2 => some (Json.jfloat "NaN", rest2)
        | none => none
      else if c = 'I' then
        match expectChars ['n', 'f', 'i', 'n', 'i', 't', 'y'] rest with
        | some rest2 => some (Json.jfloat "Infinity", rest2)
        | none => none
      else if c = '-' then
        match expectChars ['I', 'n', 'f', 'i', 'n', 'i', 't', 'y'] rest with
        | some rest2 => some (Json.jfloat "-Infinity", rest2)
        | none => jnumber (c :: rest)
      else if isDigit c then jnumber (c :: rest)
      else none

/-- Members of an object, positioned at the first key (or a later key after
a comma).  Duplicate keys are kept in order; lookup takes the last, as a
Python dict built by repeated insertion does. -/
def jmembers : Nat → List (String × Json) → List Char →
    Option (List (String × Json) × List Char)
  | 0, _, _ => none
  | fuel + 1, acc, cs =>
    match skipWs cs with
    | '"' :: rest =>
      match jstring (rest.length + 1) [] rest with
      | none => none
      | some (k, rest2) =>
        match skipWs rest2 with
        | ':' :: rest3 =>
          match jvalue fuel rest3 with
          | none => none
          | some (v, rest4) =>
            match skipWs rest4 with
            | ',' :: rest5 => jmembers fuel (acc ++ [(k, v)]) rest5
            | r :: rest5 =>
              if r = rbrace then some (acc ++ [(k, v)], rest5) else none
            | [] => none
        | _ => none
    | _ => none

/-- Elements of a nonempty array. -/
def jelems : Nat → List Json → List Char → Option (Json × List Char)
  | 0, _, _ => none
  | fuel + 1, acc, cs =>
    match jvalue fuel cs with
    | none => none
    | some (v, rest) =>
      match skipWs rest with
      | ',' :: rest2 => jelems fuel (acc ++ [v]) rest2
      | ']' :: rest2 => some (Json.jarr (acc ++ [v]), rest2)
      | _ => none

end

/-- Python `json.loads`: parse one value and require only whitespace after
it, otherwise raise `JSONDecodeError` (here: `none`). -/
def jsonLoads (s : String) : Option Json :=
  match jvalue (s.length + 2) s.data with
  | some (v, rest) => match skipWs rest with
    | [] => some v
    | _ :: _ => none
  | none => none

/-- Python `dict.get k`: the last binding wins for duplicate keys. -/
def objGet (ms : List (String × Json)) (k : String) : Option Json :=
  ms.foldl (fun acc p => if p.1 = k then some p.2 else acc) none

/-- `data.get(k)` for the parsed top-level value. -/
def jGet (j : Json) (k : String) : Option Json :=
  match j with
  | Json.jobj ms => objGet ms k
  | _ => none

/-! ### struct.pack("HHHH", rows, cols, 0, 0) -/

/-- Argument conversion of Python `struct.pack` for format `H`: an `int`
(Python `bool` included, via `__index__`) in `[0, 65535]` packs; anything
else raises `struct.error`.  `some` is the packed value, `none` the raise. -/
def packU16 (v : Json) : Option Nat :=
  match v with
  | Json.jint n => if 0 ≤ n ∧ n ≤ 65535 then some n.toNat else none
  | Json.jbool b => some (if b then 1 else 0)
  | _ => none

/-! ### The permission gate (src/webui/auth.py) -/

/-- `terminal_allowed()` returns `is_configured()`: whether a password hash
is stored.  The stored-configuration state is the boolean input. -/
def terminal_allowed (configured : Bool) : Bool := configured

/-! ### Environment schedule for the bridge loop

Each iteration of the `while True` loop in `_bridge_pty_to_websocket`
interrogates the environment: `os.waitpid(pid, WNOHANG)`, `select.select`,
`os.read`, `ws.send`, `ws.receive(timeout=0.05)`, `os.write`, and the
`TIOCSWINSZ` ioctl.  An `IterInput` fixes every outcome the environment
produces during one iteration; a schedule is a list of iterations. -/

/-- Condition on the pty master beyond buffered data: `quiet` (nothing
special), `eof` (`os.read` would return `b""`), `err` (`os.read` would
raise `OSError`). -/
inductive PtyEvent where
  | quiet
  | eof
  | err
deriving DecidableEq, Repr

/-- Outcome of `ws.receive(timeout=0.05)`: `closed` is a `None` return,
`timeout` is a raised exception (caught by the blanket handler), `text`
and `binary` are `str` and `bytes` frames. -/
inductive WsRecv where
  | closed
  | timeout
  | text (s : String)
  | binary (bs : List Nat)
deriving DecidableEq, Repr

/-- Environment outcomes for one loop iteration. -/
structure IterInput where
  /-- Bytes the child shell writes into the pty before this iteration's
  checks run; they are appended to the master-side buffer. -/
  shellWrites : List Nat
  /-- `os.waitpid(pid, WNOHANG)` returns a nonzero pid this iteration. -/
  childExited : Bool
  /-- EOF / error condition on the pty master (see `PtyEvent`). -/
  ptyEvent : PtyEvent
  /-- Outcome of `ws.receive(timeout=0.05)`. -/
  wsRecv : WsRecv
  /-- `os.write(master_fd, ...)` raises `OSError` this iteration. -/
  writeErr : Bool
  /-- `ws.send(...)` raises this iteration. -/
  sendErr : Bool
  /-- The `TIOCSWINSZ` ioctl raises this iteration. -/
  ioctlErr : Bool
deriving DecidableEq, Repr

/-- Events the loop reports through `logger`. -/
inductive LogEvent where
  | shellExited
  | wsClosedByClient
  | resizeFailed
  | bridgeError
deriving DecidableEq, Repr

/-- Why the loop exited: the `break` statements of the source, in order:
child reaped, `os.read` returned `b""`, `os.read` raised `OSError`,
`ws.receive` returned `None`, or the blanket `except` of the loop body
caught an exception (e.g. a failed `ws.send`). -/
inductive ExitKind where
  | childExit
  | ptyEof
  | ptyErr
  | wsClosed
  | loopError
deriving DecidableEq, Repr

/-- Observable state of one bridge session: the pty master buffer plus the
traces of every externally visible action the loop has taken. -/
structure BridgeState where
  /-- Bytes written by the shell, not yet read by the loop. -/
  ptyBuf : List Nat
  /-- Ghost trace: every byte the shell has written, in order. -/
  shellWritten : List Nat
  /-- Trace of `os.write(master_fd, ...)` payloads (keystrokes to shell). -/
  ptyInput : List (List Nat)
  /-- Trace of `ws.send` text frames (shell output, UTF-8 decoded). -/
  wsFrames : List String
  /-- Ghost trace: the raw bytes behind each entry of `wsFrames`. -/
  sentRaw : List (List Nat)
  /-- Trace of `TIOCSWINSZ` ioctl calls: rows, cols, and success. -/
  resizeCalls : List (Nat × Nat × Bool)
  /-- Trace of logger events. -/
  logs : List LogEvent
deriving DecidableEq, Repr

/-- The state a session starts in. -/
def initBridge : BridgeState :=
  { ptyBuf := [], shellWritten := [], ptyInput := [], wsFrames := [],
    sentRaw := [], resizeCalls := [], logs := [] }

/-- `_resize_pty(fd, rows, cols)`: `struct.pack("HHHH", rows, cols, 0, 0)`
then the `TIOCSWINSZ` ioctl, the whole body under one `except Exception`
that logs and returns.  A pack failure means no ioctl call is made; an
ioctl failure is a call that is made and fails. -/
def resizePty (st : BridgeState) (rows cols : Json) (ioctlErr : Bool) :
    BridgeState :=
  match packU16 rows, packU16 cols with
  | some r, some c =>
    if ioctlErr then
      { st with resizeCalls := st.resizeCalls ++ [(r, c, false)],
                logs := st.logs ++ [LogEvent.resizeFailed] }
    else { st with resizeCalls := st.resizeCalls ++ [(r, c, true)] }
  | _, _ => { st with logs := st.logs ++ [LogEvent.resizeFailed] }

/-- `os.write(master_fd, bs)` inside the `try` of the receive branch: a
raised `OSError` is swallowed by the blanket `except ... pass`, so a failed
write records nothing and the loop goes on. -/
def ptyWrite (st : BridgeState) (bs : List Nat) (writeErr : Bool) :
    BridgeState :=
  if writeErr then st else { st with ptyInput := st.ptyInput ++ [bs] }

/-- Python `msg.startswith("\x7b")`: whether the first character of the
text frame is the left brace. -/
def startsWithLbrace (s : String) : Bool :=
  match s.data with
  | [] => false
  | c :: _ => c = lbrace

/-- Python `data.get("type") == "resize"`: true exactly when the looked-up
value is the string `"resize"`. -/
def isResizeTag : Option Json → Bool
  | some (Json.jstr s) => s = "resize"
  | _ => false

/-- Lines 116–145 of terminal.py: receive one WebSocket message and
dispatch it.  `None` breaks the loop; a receive exception is `pass`ed; a
`str` starting with a left brace is tentatively `json.loads`-parsed and, on
a `"type": "resize"` object, routed to `_resize_pty` with defaults 24 and
80 — any other successfully parsed object does nothing; a parse failure or
a `str` not starting with a left brace is written to the pty UTF-8 encoded;
`bytes` are written as they are. -/
def handleMessage (st : BridgeState) (msg : WsRecv) (w e : Bool) :
    BridgeState × Option ExitKind :=
  match msg with
  | WsRecv.closed =>
    ({ st with logs := st.logs ++ [LogEvent.wsClosedByClient] },
     some ExitKind.wsClosed)
  | WsRecv.timeout => (st, none)
  | WsRecv.binary bs => (ptyWrite st bs w, none)
  | WsRecv.text s =>
    if startsWithLbrace s then
      match jsonLoads s with
      | some j =>
        if isResizeTag (jGet j "type") then
          (resizePty st ((jGet j "rows").getD (Json.jint 24))
            ((jGet j "cols").getD (Json.jint 80)) e, none)
        else (st, none)
      | none => (ptyWrite st (encodeUtf8 s) w, none)
    else (ptyWrite st (encodeUtf8 s) w, none)

/-- The chunk size of `os.read(master_fd, 4096)`. -/
def chunkSize : Nat := 4096

/-- One iteration of the `while True` loop, in source order: the shell's
pending bytes join the buffer; `waitpid(WNOHANG)` may end the session;
`select` marks the master readable when data is buffered or an EOF/error
condition is pending; a readable master is read (up to `chunkSize` bytes)
and the chunk is sent UTF-8-decoded-with-replacement, a raised `ws.send`
being caught by the loop's own `except` (logged, `break`); then one
WebSocket message is received and dispatched.  Returns the next state and
`some k` when a `break` ends the loop. -/
def stepBridge (st0 : BridgeState) (i : IterInput) :
    BridgeState × Option ExitKind :=
  let st := { st0 with ptyBuf := st0.ptyBuf ++ i.shellWrites,
                       shellWritten := st0.shellWritten ++ i.shellWrites }
  if i.childExited then
    ({ st with logs := st.logs ++ [LogEvent.shellExited] },
     some ExitKind.childExit)
  else if i.ptyEvent = PtyEvent.err then (st, some ExitKind.ptyErr)
  else if st.ptyBuf.isEmpty then
    if i.ptyEvent = PtyEvent.eof then (st, some ExitKind.ptyEof)
    else handleMessage st i.wsRecv i.writeErr i.ioctlErr
  else
    let chunk := st.ptyBuf.take chunkSize
    let st1 := { st with ptyBuf := st.ptyBuf.drop chunkSize }
    if i.sendErr then
      ({ st1 with logs := st1.logs ++ [LogEvent.bridgeError] },
       some ExitKind.loopError)
    else
      handleMessage
        { st1 with wsFrames := st1.wsFrames ++ [decodeUtf8Replace chunk],
                   sentRaw := st1.sentRaw ++ [chunk] }
        i.wsRecv i.writeErr i.ioctlErr

/-- Run the loop over a finite schedule.  `none` means the schedule ran out
with the loop still going. -/
def runBridge : BridgeState → List IterInput → BridgeState × Option ExitKind
  | st, [] => (st, none)
  | st, i :: rest =>
    match stepBridge st i with
    | (st1, none) => runBridge st1 rest
    | (st1, some k) => (st1, some k)

/-! ### The WebSocket handler `terminal_websocket` -/

/-- Externally visible actions of the handler outside the bridge loop. -/
inductive SessEvent where
  | wsSend (s : String)
  | wsClose (reason : String)
  | spawnCall
  | closeFdCall (failed : Bool)
  | reapCall (failed : Bool)
deriving DecidableEq, Repr

/-- How the handler ended. -/
inductive SessOutcome where
  | refused
  | spawnError
  | bridged (k : ExitKind)
  | stillRunning
deriving DecidableEq, Repr

/-- Environment of one whole session. -/
structure SessionInput where
  /-- Whether first-run configuration is complete (`is_configured()`). -/
  configured : Bool
  /-- `pty.fork()` raises. -/
  spawnFails : Bool
  /-- Per-iteration environment outcomes for the bridge loop. -/
  schedule : List IterInput
  /-- `os.close(master_fd)` in the `finally` block raises (e.g. the
  descriptor is already closed). -/
  closeFdErr : Bool
  /-- `os.waitpid(pid, WNOHANG)` in the `finally` block raises (e.g. the
  child is already reaped). -/
  reapErr : Bool
deriving DecidableEq, Repr

/-- The two refusal lines and the close reason of the permission branch. -/
def lockedMsg1 : String := "Terminal access locked until password is set.\r\n"

def lockedMsg2 : String := "Please complete first-run setup.\r\n"

def lockedReason : String := "Terminal access locked"

/-- Stand-in for the `f"\r\nTerminal error: {e}\r\n"` report (the real text
interpolates the exception). -/
def terminalErrorMsg : String := "\r\nTerminal error\r\n"

/-- `terminal_websocket(ws)`: the permission check and early return; then
`pty.fork` and the bridge loop inside `try`, with the outer `except`
reporting errors over the channel, and the `finally` block closing the
master descriptor and non-blockingly reaping the child — each teardown step
under its own `except Exception: pass`, and each skipped when its resource
was never assigned (`None`).  Returns the handler's event trace, the final
bridge state, and the outcome. -/
def terminalWebsocket (inp : SessionInput) :
    List SessEvent × BridgeState × SessOutcome :=
  if ¬ terminal_allowed inp.configured then
    ([SessEvent.wsSend lockedMsg1, SessEvent.wsSend lockedMsg2,
      SessEvent.wsClose lockedReason], initBridge, SessOutcome.refused)
  else if inp.spawnFails then
    ([SessEvent.spawnCall, SessEvent.wsSend terminalErrorMsg],
     initBridge, SessOutcome.spawnError)
  else
    match runBridge initBridge inp.schedule with
    | (st, none) => ([SessEvent.spawnCall], st, SessOutcome.stillRunning)
    | (st, some k) =>
      ([SessEvent.spawnCall, SessEvent.closeFdCall inp.closeFdErr,
        SessEvent.reapCall inp.reapErr], st, SessOutcome.bridged k)

/-! ### Lemmas: what each operation touches -/

theorem ptyWrite_preserves (st : BridgeState) (bs : List Nat) (w : Bool) :
    (ptyWrite st bs w).ptyBuf = st.ptyBuf ∧
    (ptyWrite st bs w).shellWritten = st.shellWritten ∧
    (ptyWrite st bs w).wsFrames = st.wsFrames ∧
    (ptyWrite st bs w).sentRaw = st.sentRaw ∧
    (ptyWrite st bs w).resizeCalls = st.resizeCalls ∧
    (ptyWrite st bs w).logs = st.logs := by
  unfold ptyWrite; split <;> simp

theorem ptyWrite_ok (st : BridgeState) (bs : List Nat) :
    ptyWrite st bs false = { st with ptyInput := st.ptyInput ++ [bs] } := by
  unfold ptyWrite; simp

theorem ptyWrite_failed (st : BridgeState) (bs : List Nat) :
    ptyWrite st bs true = st := by
  unfold ptyWrite; simp

theorem resizePty_preserves (st : BridgeState) (rows cols : Json) (e : Bool) :
    (resizePty st rows cols e).ptyBuf = st.ptyBuf ∧
    (resizePty st rows cols e).shellWritten = st.shellWritten ∧
    (resizePty st rows cols e).ptyInput = st.ptyInput ∧
    (resizePty st rows cols e).wsFrames = st.wsFrames ∧
    (resizePty st rows cols e).sentRaw = st.sentRaw := by
  unfold resizePty
  cases h1 : packU16 rows <;> cases h2 : packU16 cols <;> simp <;> split <;> simp

theorem resizePty_packed (st : BridgeState) (rows cols : Json) (e : Bool)
    (r c : Nat) (h1 : packU16 rows = some r) (h2 : packU16 cols = some c) :
    resizePty st rows cols e =
      (if e then
        { st with resizeCalls := st.resizeCalls ++ [(r, c, false)],
                  logs := st.logs ++ [LogEvent.resizeFailed] }
       else { st with resizeCalls := st.resizeCalls ++ [(r, c, true)] }) := by
  unfold resizePty; rw [h1, h2]

theorem resizePty_packFail (st : BridgeState) (rows cols : Json) (e : Bool)
    (h : packU16 rows = none ∨ packU16 cols = none) :
    resizePty st rows cols e = { st with logs := st.logs ++ [LogEvent.resizeFailed] } := by
  unfold resizePty
  cases h1 : packU16 rows <;> cases h2 : packU16 cols <;> simp <;> simp [h1, h2] at h

/-! ### Lemmas: dispatch of one received message -/

theorem handleMessage_timeout (st : BridgeState) (w e : Bool) :
    handleMessage st WsRecv.timeout w e = (st, none) := rfl

theorem handleMessage_binary (st : BridgeState) (bs : List Nat) (w e : Bool) :
    handleMessage st (WsRecv.binary bs) w e = (ptyWrite st bs w, none) := rfl

theorem handleMessage_text_nobrace (st : BridgeState) (s : String) (w e : Bool)
    (h : startsWithLbrace s = false) :
    handleMessage st (WsRecv.text s) w e = (ptyWrite st (encodeUtf8 s) w, none) := by
  simp [handleMessage, h]

theorem handleMessage_text_noparse (st : BridgeState) (s : String) (w e : Bool)
    (hb : startsWithLbrace s = true) (hj : jsonLoads s = none) :
    handleMessage st (WsRecv.text s) w e = (ptyWrite st (encodeUtf8 s) w, none) := by
  simp [handleMessage, hb, hj]

theorem handleMessage_text_nonresize (st : BridgeState) (s : String) (j : Json)
    (w e : Bool) (hb : startsWithLbrace s = true) (hj : jsonLoads s = some j)
    (ht : isResizeTag (jGet j "type") = false) :
    handleMessage st (WsRecv.text s) w e = (st, none) := by
  simp [handleMessage, hb, hj, ht]

theorem handleMessage_text_resize (st : BridgeState) (s : String) (j : Json)
    (w e : Bool) (hb : startsWithLbrace s = true) (hj : jsonLoads s = some j)
    (ht : isResizeTag (jGet j "type") = true) :
    handleMessage st (WsRecv.text s) w e =
      (resizePty st ((jGet j "rows").getD (Json.jint 24))
        ((jGet j "cols").getD (Json.jint 80)) e, none) := by
  simp [handleMessage, hb, hj, ht]

/-- Dispatching a message never touches the pty buffer, the ghost trace of
shell bytes, or the outbound frames. -/
theorem handleMessage_preserves (st : BridgeState) (msg : WsRecv) (w e : Bool) :
    ((handleMessage st msg w e).1).ptyBuf = st.ptyBuf ∧
    ((handleMessage st msg w e).1).shellWritten = st.shellWritten ∧
    ((handleMessage st msg w e).1).wsFrames = st.wsFrames ∧
    ((handleMessage st msg w e).1).sentRaw = st.sentRaw := by
  cases msg with
  | closed => simp [handleMessage]
  | timeout => simp [handleMessage]
  | binary bs =>
    have h := ptyWrite_preserves st bs w
    rw [handleMessage_binary]
    exact ⟨h.1, h.2.1, h.2.2.1, h.2.2.2.1⟩
  | text s =>
    cases hb : startsWithLbrace s with
    | false =>
      have h := ptyWrite_preserves st (encodeUtf8 s) w
      rw [handleMessage_text_nobrace st s w e hb]
      exact ⟨h.1, h.2.1, h.2.2.1, h.2.2.2.1⟩
    | true =>
      cases hj : jsonLoads s with
      | none =>
        have h := ptyWrite_preserves st (encodeUtf8 s) w
        rw [handleMessage_text_noparse st s w e hb hj]
        exact ⟨h.1, h.2.1, h.2.2.1, h.2.2.2.1⟩
      | some j =>
        cases ht : isResizeTag (jGet j "type") with
        | false => rw [handleMessage_text_nonresize st s j w e hb hj ht]; exact ⟨rfl, rfl, rfl, rfl⟩
        | true =>
          have h := resizePty_preserves st ((jGet j "rows").getD (Json.jint 24))
            ((jGet j "cols").getD (Json.jint 80)) e
          rw [handleMessage_text_resize st s j w e hb hj ht]
          exact ⟨h.1, h.2.1, h.2.2.2.1, h.2.2.2.2⟩

/-! ### Lemmas: one loop iteration -/

/-- On a quiet iteration (child alive, no pty EOF/error, send succeeds),
the iteration is the pty-to-WebSocket phase — obtained by running the very
same iteration with a timed-out receive — followed by dispatch of the
received message. -/
theorem stepBridge_decomp (st : BridgeState) (i : IterInput)
    (hc : i.childExited = false) (hp : i.ptyEvent = PtyEvent.quiet)
    (hs : i.sendErr = false) :
    stepBridge st i =
      handleMessage ((stepBridge st { i with wsRecv := WsRecv.timeout }).1)
        i.wsRecv i.writeErr i.ioctlErr := by
  unfold stepBridge
  simp [hc, hp, hs]
  split
  · rfl
  · rfl

/-- The pty-to-WebSocket phase alone never runs teardown and never touches
the keystroke trace, the resize trace, or the log. -/
theorem stepBridge_timeout_fields (st : BridgeState) (i : IterInput)
    (hc : i.childExited = false) (hp : i.ptyEvent = PtyEvent.quiet)
    (hs : i.sendErr = false) :
    (stepBridge st { i with wsRecv := WsRecv.timeout }).2 = none ∧
    ((stepBridge st { i with wsRecv := WsRecv.timeout }).1).ptyInput = st.ptyInput ∧
    ((stepBridge st { i with wsRecv := WsRecv.timeout }).1).resizeCalls = st.resizeCalls ∧
    ((stepBridge st { i with wsRecv := WsRecv.timeout }).1).logs = st.logs := by
  unfold stepBridge
  simp [hc, hp, hs]
  split
  · simp [handleMessage]
  · simp [handleMessage]

/-- Packaged form of the two lemmas above: on a quiet iteration there is a
state `rp` — the result of the pty-to-WebSocket phase — such that the whole
iteration is `handleMessage` applied to `rp`, and `rp` agrees with the
start state on keystrokes, resize calls and log. -/
theorem stepBridge_quiet (st : BridgeState) (i : IterInput)
    (hc : i.childExited = false) (hp : i.ptyEvent = PtyEvent.quiet)
    (hs : i.sendErr = false) :
    ∃ rp : BridgeState,
      (stepBridge st { i with wsRecv := WsRecv.timeout }).1 = rp ∧
      stepBridge st i = handleMessage rp i.wsRecv i.writeErr i.ioctlErr ∧
      rp.ptyInput = st.ptyInput ∧ rp.resizeCalls = st.resizeCalls ∧
      rp.logs = st.logs := by
  have hd := stepBridge_decomp st i hc hp hs
  have hf := stepBridge_timeout_fields st i hc hp hs
  exact ⟨(stepBridge st { i with wsRecv := WsRecv.timeout }).1, rfl, hd,
    hf.2.1, hf.2.2.1, hf.2.2.2⟩

/-! ### The data-stream invariant (claim C1) -/

/-- Every byte the shell has written is accounted for exactly once: either
inside one of the raw chunks behind the frames already sent to the
WebSocket, in order, or still pending in the pty buffer; and the frames
actually sent are precisely the chunks decoded as UTF-8 with replacement. -/
def streamInv (st : BridgeState) : Prop :=
  st.sentRaw.flatten ++ st.ptyBuf = st.shellWritten ∧
  st.wsFrames = st.sentRaw.map decodeUtf8Replace

theorem streamInv_init : streamInv initBridge := ⟨rfl, rfl⟩

theorem stepBridge_streamInv (st : BridgeState) (i : IterInput)
    (hs : i.sendErr = false) (h : streamInv st) :
    streamInv (stepBridge st i).1 := by
  obtain ⟨h1, h2⟩ := h
  have hpush : st.sentRaw.flatten ++ (st.ptyBuf ++ i.shellWrites)
      = st.shellWritten ++ i.shellWrites := by
    rw [← List.append_assoc, h1]
  unfold stepBridge
  simp [hs]
  split
  · exact ⟨hpush, h2⟩
  · split
    · exact ⟨hpush, h2⟩
    · split
      · split
        · exact ⟨hpush, h2⟩
        · have hp := handleMessage_preserves
            { st with ptyBuf := st.ptyBuf ++ i.shellWrites,
                      shellWritten := st.shellWritten ++ i.shellWrites }
            i.wsRecv i.writeErr i.ioctlErr
          exact ⟨by rw [hp.1, hp.2.2.2, hp.2.1]; exact hpush,
                 by rw [hp.2.2.1, hp.2.2.2]; exact h2⟩
      · have hp := handleMessage_preserves
          { st with
              ptyBuf := (st.ptyBuf ++ i.shellWrites).drop chunkSize,
              shellWritten := st.shellWritten ++ i.shellWrites,
              wsFrames := st.wsFrames ++
                [decodeUtf8Replace ((st.ptyBuf ++ i.shellWrites).take chunkSize)],
              sentRaw := st.sentRaw ++ [(st.ptyBuf ++ i.shellWrites).take chunkSize] }
          i.wsRecv i.writeErr i.ioctlErr
        refine ⟨?_, ?_⟩
        · rw [hp.1, hp.2.2.2, hp.2.1]
          simp only [List.flatten_append, List.flatten_cons, List.flatten_nil,
            List.append_nil]
          rw [List.append_assoc, List.take_append_drop]
          exact hpush
        · rw [hp.2.2.1, hp.2.2.2]
          simp [h2]

theorem runBridge_streamInv (sched : List IterInput) :
    ∀ st : BridgeState, (∀ i ∈ sched, i.sendErr = false) → streamInv st →
      streamInv (runBridge st sched).1 := by
  induction sched with
  | nil => intro st _ h; exact h
  | cons i rest ih =>
    intro st hall h
    have hstep := stepBridge_streamInv st i (hall i (by simp)) h
    rcases hsb : stepBridge st i with ⟨st1, k⟩
    rw [hsb] at hstep
    cases k with
    | none =>
      have hrun : runBridge st (i :: rest) = runBridge st1 rest := by
        simp [runBridge, hsb]
      rw [hrun]
      exact ih st1 (fun j hj => hall j (List.mem_cons_of_mem i hj)) hstep
    | some k =>
      have hrun : runBridge st (i :: rest) = (st1, some k) := by
        simp [runBridge, hsb]
      rw [hrun]
      exact hstep

/-! ### Claim theorems -/

/-- An iteration on which the environment does nothing at all. -/
def quietIter : IterInput :=
  { shellWrites := [], childExited := false, ptyEvent := PtyEvent.quiet,
    wsRecv := WsRecv.timeout, writeErr := false, sendErr := false,
    ioctlErr := false }

/-- A run in which the shell writes one byte and the child is then observed
exited on the same iteration. -/
def c1LostSched : List IterInput :=
  [{ quietIter with shellWrites := [65], childExited := true }]

/-- Claim C1, counterexample: the claim promises no loss for every
schedule, "including bytes still buffered in the terminal when the child
exits".  On the schedule where the shell writes byte 65 and the child's
exit is observed by the `waitpid` check of the same iteration, the loop
breaks before the `select`/`os.read` step ever runs: the session ends with
the byte still buffered and nothing was sent to the channel. -/
theorem c1_counterexample :
    (runBridge initBridge c1LostSched).2 = some ExitKind.childExit ∧
    ((runBridge initBridge c1LostSched).1).shellWritten = [65] ∧
    ((runBridge initBridge c1LostSched).1).wsFrames = [] ∧
    ((runBridge initBridge c1LostSched).1).sentRaw = [] ∧
    ((runBridge initBridge c1LostSched).1).ptyBuf = [65] :=
  ⟨rfl, rfl, rfl, rfl, rfl⟩

/-- Claim C1 (amended): for every schedule of reads across poll-interval
boundaries in which no channel send fails, the bytes written to the
terminal handle by the child shell are forwarded to the network channel in
order, with no duplication and no loss, each chunk decoded as UTF-8 with
invalid sequences replaced — except that bytes still buffered in the
terminal when the loop exits (in particular when the child-exit check fires
with data pending) are discarded, never sent.  Formally: at every point of
the run, the concatenation of the raw bytes behind the frames already sent,
followed by the bytes still buffered, is exactly the byte sequence the
shell wrote, and the frames sent are those chunks decoded with
replacement. -/
theorem c1_stream_order_no_loss (sched : List IterInput)
    (h : ∀ i ∈ sched, i.sendErr = false) :
    ((runBridge initBridge sched).1).sentRaw.flatten ++
        ((runBridge initBridge sched).1).ptyBuf
      = ((runBridge initBridge sched).1).shellWritten ∧
    ((runBridge initBridge sched).1).wsFrames
      = ((runBridge initBridge sched).1).sentRaw.map decodeUtf8Replace :=
  runBridge_streamInv sched initBridge h streamInv_init

/-- A run carrying the bytes of "Hi" across a poll boundary. -/
def c1DemoSched : List IterInput :=
  [{ quietIter with shellWrites := [72, 105] }, quietIter]

/-- Claim C1, witness: the amended statement evaluated on a concrete
two-iteration schedule. -/
theorem c1_stream_order_no_loss_witness :
    ((runBridge initBridge c1DemoSched).1).sentRaw.flatten ++
        ((runBridge initBridge c1DemoSched).1).ptyBuf
      = ((runBridge initBridge c1DemoSched).1).shellWritten ∧
    ((runBridge initBridge c1DemoSched).1).wsFrames
      = ((runBridge initBridge c1DemoSched).1).sentRaw.map decodeUtf8Replace :=
  c1_stream_order_no_loss c1DemoSched (by decide)

/-- Claim C4: whenever the permission query returns false, the handler
sends the fixed human-readable refusal lines over the channel, closes the
channel with a reason code, and returns before the `try` block: the spawner
is never invoked (no `spawnCall` in the trace) and no bridge state is ever
created. -/
theorem c4_refusal_no_spawn (inp : SessionInput)
    (h : terminal_allowed inp.configured = false) :
    terminalWebsocket inp =
      ([SessEvent.wsSend lockedMsg1, SessEvent.wsSend lockedMsg2,
        SessEvent.wsClose lockedReason], initBridge, SessOutcome.refused) ∧
    (terminalWebsocket inp).1.count SessEvent.spawnCall = 0 := by
  have hconf : inp.configured = false := h
  constructor
  · simp [terminalWebsocket, terminal_allowed, hconf]
  · simp [terminalWebsocket, terminal_allowed, hconf, List.count_cons]

/-- Claim C4, witness: a session with first-run configuration incomplete. -/
theorem c4_refusal_no_spawn_witness :
    terminalWebsocket
        { configured := false, spawnFails := false, schedule := [],
          closeFdErr := false, reapErr := false } =
      ([SessEvent.wsSend lockedMsg1, SessEvent.wsSend lockedMsg2,
        SessEvent.wsClose lockedReason], initBridge, SessOutcome.refused) ∧
    (terminalWebsocket
        { configured := false, spawnFails := false, schedule := [],
          closeFdErr := false, reapErr := false }).1.count
      SessEvent.spawnCall = 0 :=
  c4_refusal_no_spawn _ rfl

/-- Claim C5: after a successful spawn, on every exit path of the bridge
loop — child exit, pty EOF, pty read error, peer close, or an exception
caught by the loop's own handler (e.g. a failed send) — the `finally` block
runs exactly once: the trace holds exactly one close of the terminal handle
followed by exactly one non-blocking reap, each recorded whether or not it
fails (the two steps sit in separate `except Exception: pass` blocks, so a
failure of the close — e.g. an already-released descriptor — does not
prevent the reap, an already-reaped child raises and is swallowed, and the
handler still returns normally for every combination of the two error
flags). -/
theorem c5_teardown_every_exit_once (inp : SessionInput) (k : ExitKind)
    (ha : terminal_allowed inp.configured = true)
    (hs : inp.spawnFails = false)
    (hr : (runBridge initBridge inp.schedule).2 = some k) :
    terminalWebsocket inp =
      ([SessEvent.spawnCall, SessEvent.closeFdCall inp.closeFdErr,
        SessEvent.reapCall inp.reapErr],
       (runBridge initBridge inp.schedule).1, SessOutcome.bridged k) := by
  have hconf : inp.configured = true := ha
  rcases hrb : runBridge initBridge inp.schedule with ⟨st, r⟩
  rw [hrb] at hr
  simp only at hr
  subst hr
  simp [terminalWebsocket, terminal_allowed, hconf, hs, hrb]

/-- Claim C5, witness: both teardown steps fail (handle already released,
child already reaped) on a session ended by peer close; both are still
attempted, once each, and the handler returns normally. -/
theorem c5_teardown_every_exit_once_witness :
    terminalWebsocket
        { configured := true, spawnFails := false,
          schedule := [{ quietIter with wsRecv := WsRecv.closed }],
          closeFdErr := true, reapErr := true } =
      ([SessEvent.spawnCall, SessEvent.closeFdCall true, SessEvent.reapCall true],
       (runBridge initBridge [{ quietIter with wsRecv := WsRecv.closed }]).1,
       SessOutcome.bridged ExitKind.wsClosed) :=
  c5_teardown_every_exit_once _ ExitKind.wsClosed rfl rfl (by decide)

/-- The resize control frame of the spec's test property (braces written
as \x7b/\x7d). -/
def resizeFrame40x100 : String :=
  "\x7b\"type\":\"resize\",\"rows\":40,\"cols\":100\x7d"

theorem resizeFrame40x100_startsWith :
    startsWithLbrace resizeFrame40x100 = true := rfl

theorem resizeFrame40x100_parse :
    jsonLoads resizeFrame40x100 = some (Json.jobj
      [("type", Json.jstr "resize"), ("rows", Json.jint 40),
       ("cols", Json.jint 100)]) := rfl

theorem handleMessage_resize40x100 (st : BridgeState) (w e : Bool) :
    handleMessage st (WsRecv.text resizeFrame40x100) w e =
      (resizePty st (Json.jint 40) (Json.jint 100) e, none) := by
  rw [handleMessage_text_resize st resizeFrame40x100 _ w e
    resizeFrame40x100_startsWith resizeFrame40x100_parse rfl]
  rfl

theorem resizePty40x100 (st : BridgeState) (e : Bool) :
    resizePty st (Json.jint 40) (Json.jint 100) e =
      (if e then
        { st with resizeCalls := st.resizeCalls ++ [(40, 100, false)],
                  logs := st.logs ++ [LogEvent.resizeFailed] }
       else { st with resizeCalls := st.resizeCalls ++ [(40, 100, true)] }) :=
  resizePty_packed st _ _ e 40 100 (by decide) (by decide)

/-- Claim C6: receiving the text frame
`\x7b"type":"resize","rows":40,"cols":100\x7d` on a quiet ACTIVE iteration
produces exactly one window-size update call with rows=40 and cols=100
(succeeding unless the ioctl itself fails), writes nothing to the terminal
handle, and leaves the forwarded data stream — outbound frames, their raw
bytes, and the pty buffer — exactly as the same iteration with no inbound
message would have left it. -/
theorem c6_resize_exactly_once (st : BridgeState) (i : IterInput)
    (hc : i.childExited = false) (hp : i.ptyEvent = PtyEvent.quiet)
    (hs : i.sendErr = false) (hm : i.wsRecv = WsRecv.text resizeFrame40x100) :
    (stepBridge st i).2 = none ∧
    ((stepBridge st i).1).resizeCalls = st.resizeCalls ++ [(40, 100, !i.ioctlErr)] ∧
    ((stepBridge st i).1).ptyInput = st.ptyInput ∧
    ((stepBridge st i).1).wsFrames
      = ((stepBridge st { i with wsRecv := WsRecv.timeout }).1).wsFrames ∧
    ((stepBridge st i).1).sentRaw
      = ((stepBridge st { i with wsRecv := WsRecv.timeout }).1).sentRaw ∧
    ((stepBridge st i).1).ptyBuf
      = ((stepBridge st { i with wsRecv := WsRecv.timeout }).1).ptyBuf := by
  obtain ⟨rp, hrp, hd, hpi, hrc, hlg⟩ := stepBridge_quiet st i hc hp hs
  rw [hm, handleMessage_resize40x100, resizePty40x100] at hd
  rw [hd, hrp]
  cases hio : i.ioctlErr <;> simp [hpi, hrc]

/-- The malformed control-frame candidate of the spec's test property. -/
def notJsonFrame : String := "\x7bnot valid json"

theorem notJsonFrame_startsWith : startsWithLbrace notJsonFrame = true := rfl

theorem notJsonFrame_parse : jsonLoads notJsonFrame = none := rfl

/-- Claim C7: a text frame that begins with a left brace but is not valid
JSON fails the tentative `json.loads`; the `JSONDecodeError` handler then
writes the frame's bytes (its UTF-8 encoding) verbatim to the terminal
handle, the resize trace is untouched, and the loop continues — the frame
is neither dropped nor turned into an error for the peer. -/
theorem c7_invalid_json_written_verbatim (st : BridgeState) (i : IterInput)
    (s : String) (hc : i.childExited = false) (hp : i.ptyEvent = PtyEvent.quiet)
    (hs : i.sendErr = false) (hw : i.writeErr = false)
    (hm : i.wsRecv = WsRecv.text s) (hb : startsWithLbrace s = true)
    (hj : jsonLoads s = none) :
    (stepBridge st i).2 = none ∧
    ((stepBridge st i).1).ptyInput = st.ptyInput ++ [encodeUtf8 s] ∧
    ((stepBridge st i).1).resizeCalls = st.resizeCalls := by
  obtain ⟨rp, hrp, hd, hpi, hrc, hlg⟩ := stepBridge_quiet st i hc hp hs
  rw [hm, handleMessage_text_noparse rp s i.writeErr i.ioctlErr hb hj,
    hw, ptyWrite_ok] at hd
  rw [hd]
  exact ⟨rfl, by simp [hpi], by simp [hrc]⟩

/-- Claim C7, witness: the frame `\x7bnot valid json` is forwarded to the
terminal handle as its UTF-8 bytes. -/
theorem c7_invalid_json_written_verbatim_witness :
    (stepBridge initBridge { quietIter with wsRecv := WsRecv.text notJsonFrame }).2
      = none ∧
    ((stepBridge initBridge
        { quietIter with wsRecv := WsRecv.text notJsonFrame }).1).ptyInput
      = initBridge.ptyInput ++ [encodeUtf8 notJsonFrame] ∧
    ((stepBridge initBridge
        { quietIter with wsRecv := WsRecv.text notJsonFrame }).1).resizeCalls
      = initBridge.resizeCalls :=
  c7_invalid_json_written_verbatim initBridge _ notJsonFrame rfl rfl rfl rfl rfl
    notJsonFrame_startsWith notJsonFrame_parse

/-- Claim C10: a binary (bytes) frame is written to the terminal handle
exactly as received and is never a candidate for control-frame parsing —
the resize trace is untouched for every byte content, including payloads
whose first byte is the left brace. -/
theorem c10_binary_never_parsed (st : BridgeState) (i : IterInput)
    (bs : List Nat) (hc : i.childExited = false)
    (hp : i.ptyEvent = PtyEvent.quiet) (hs : i.sendErr = false)
    (hw : i.writeErr = false) (hm : i.wsRecv = WsRecv.binary bs) :
    (stepBridge st i).2 = none ∧
    ((stepBridge st i).1).ptyInput = st.ptyInput ++ [bs] ∧
    ((stepBridge st i).1).resizeCalls = st.resizeCalls := by
  obtain ⟨rp, hrp, hd, hpi, hrc, hlg⟩ := stepBridge_quiet st i hc hp hs
  rw [hm, handleMessage_binary, hw, ptyWrite_ok] at hd
  rw [hd]
  exact ⟨rfl, by simp [hpi], by simp [hrc]⟩

/-- Claim C10, witness: a bytes frame starting with byte 0x7b (the left
brace) is written verbatim, with no resize dispatch. -/
theorem c10_binary_never_parsed_witness :
    (stepBridge initBridge
        { quietIter with wsRecv := WsRecv.binary [123, 65] }).2 = none ∧
    ((stepBridge initBridge
        { quietIter with wsRecv := WsRecv.binary [123, 65] }).1).ptyInput
      = initBridge.ptyInput ++ [[123, 65]] ∧
    ((stepBridge initBridge
        { quietIter with wsRecv := WsRecv.binary [123, 65] }).1).resizeCalls
      = initBridge.resizeCalls :=
  c10_binary_never_parsed initBridge _ [123, 65] rfl rfl rfl rfl rfl

/-- Claim C9: a well-formed resize frame whose rows or cols value cannot be
packed as an unsigned 16-bit integer (`struct.pack("HHHH", ...)` raises:
the value is no integer, or is negative, or exceeds 65535 — a Python bool
packs as 0 or 1) never issues a window-size update: the exception is caught
inside `_resize_pty`, which only logs, and the loop continues with the
terminal untouched. -/
theorem c9_unpackable_resize_caught (st : BridgeState) (i : IterInput)
    (s : String) (j : Json) (hc : i.childExited = false)
    (hp : i.ptyEvent = PtyEvent.quiet) (hs : i.sendErr = false)
    (hm : i.wsRecv = WsRecv.text s) (hb : startsWithLbrace s = true)
    (hj : jsonLoads s = some j) (ht : isResizeTag (jGet j "type") = true)
    (hbad : packU16 ((jGet j "rows").getD (Json.jint 24)) = none ∨
            packU16 ((jGet j "cols").getD (Json.jint 80)) = none) :
    (stepBridge st i).2 = none ∧
    ((stepBridge st i).1).resizeCalls = st.resizeCalls ∧
    ((stepBridge st i).1).ptyInput = st.ptyInput ∧
    ((stepBridge st i).1).logs = st.logs ++ [LogEvent.resizeFailed] := by
  obtain ⟨rp, hrp, hd, hpi, hrc, hlg⟩ := stepBridge_quiet st i hc hp hs
  rw [hm, handleMessage_text_resize rp s j i.writeErr i.ioctlErr hb hj ht,
    resizePty_packFail rp _ _ _ hbad] at hd
  rw [hd]
  exact ⟨rfl, by simp [hrc], by simp [hpi], by simp [hlg]⟩

/-- A resize frame whose rows value exceeds the unsigned 16-bit range. -/
def hugeResizeFrame : String :=
  "\x7b\"type\":\"resize\",\"rows\":70000,\"cols\":100\x7d"

theorem hugeResizeFrame_parse :
    jsonLoads hugeResizeFrame = some (Json.jobj
      [("type", Json.jstr "resize"), ("rows", Json.jint 70000),
       ("cols", Json.jint 100)]) := rfl

/-- Claim C9, witness: rows = 70000 cannot be packed; no resize call is
issued and the loop continues, logging the failure. -/
theorem c9_unpackable_resize_caught_witness :
    (stepBridge initBridge
        { quietIter with wsRecv := WsRecv.text hugeResizeFrame }).2 = none ∧
    ((stepBridge initBridge
        { quietIter with wsRecv := WsRecv.text hugeResizeFrame }).1).resizeCalls
      = initBridge.resizeCalls ∧
    ((stepBridge initBridge
        { quietIter with wsRecv := WsRecv.text hugeResizeFrame }).1).ptyInput
      = initBridge.ptyInput ∧
    ((stepBridge initBridge
        { quietIter with wsRecv := WsRecv.text hugeResizeFrame }).1).logs
      = initBridge.logs ++ [LogEvent.resizeFailed] :=
  c9_unpackable_resize_caught initBridge _ hugeResizeFrame _ rfl rfl rfl rfl
    rfl hugeResizeFrame_parse rfl (Or.inl rfl)

/-- Claim C6, witness: the resize frame arriving on an otherwise idle
iteration from the start state. -/
theorem c6_resize_exactly_once_witness :
    (stepBridge initBridge
        { quietIter with wsRecv := WsRecv.text resizeFrame40x100 }).2 = none ∧
    ((stepBridge initBridge
        { quietIter with wsRecv := WsRecv.text resizeFrame40x100 }).1).resizeCalls
      = initBridge.resizeCalls ++ [(40, 100, true)] ∧
    ((stepBridge initBridge
        { quietIter with wsRecv := WsRecv.text resizeFrame40x100 }).1).ptyInput
      = initBridge.ptyInput ∧
    ((stepBridge initBridge
        { quietIter with wsRecv := WsRecv.text resizeFrame40x100 }).1).wsFrames
      = ((stepBridge initBridge { quietIter with wsRecv := WsRecv.timeout }).1).wsFrames ∧
    ((stepBridge initBridge
        { quietIter with wsRecv := WsRecv.text resizeFrame40x100 }).1).sentRaw
      = ((stepBridge initBridge { quietIter with wsRecv := WsRecv.timeout }).1).sentRaw ∧
    ((stepBridge initBridge
        { quietIter with wsRecv := WsRecv.text resizeFrame40x100 }).1).ptyBuf
      = ((stepBridge initBridge { quietIter with wsRecv := WsRecv.timeout }).1).ptyBuf :=
  c6_resize_exactly_once initBridge _ rfl rfl rfl rfl

/-- Claim C8: when the `TIOCSWINSZ` ioctl of a well-formed, packable resize
request fails, `_resize_pty` catches the exception and only logs it: the
loop continues in ACTIVE, nothing is written to the terminal handle, and
the outbound data stream — frames, raw bytes, buffer — is exactly what the
same iteration produces when the ioctl succeeds; the sole trace of the
failure is the failed resize call and the log line. -/
theorem c8_resize_failure_nonfatal (st : BridgeState) (i : IterInput)
    (s : String) (j : Json) (r c : Nat)
    (hc : i.childExited = false) (hp : i.ptyEvent = PtyEvent.quiet)
    (hs : i.sendErr = false) (he : i.ioctlErr = true)
    (hm : i.wsRecv = WsRecv.text s) (hb : startsWithLbrace s = true)
    (hj : jsonLoads s = some j) (ht : isResizeTag (jGet j "type") = true)
    (hrow : packU16 ((jGet j "rows").getD (Json.jint 24)) = some r)
    (hcol : packU16 ((jGet j "cols").getD (Json.jint 80)) = some c) :
    (stepBridge st i).2 = none ∧
    ((stepBridge st i).1).ptyInput = st.ptyInput ∧
    ((stepBridge st i).1).resizeCalls = st.resizeCalls ++ [(r, c, false)] ∧
    ((stepBridge st i).1).logs = st.logs ++ [LogEvent.resizeFailed] ∧
    ((stepBridge st i).1).wsFrames
      = ((stepBridge st { i with wsRecv := WsRecv.timeout }).1).wsFrames ∧
    ((stepBridge st i).1).sentRaw
      = ((stepBridge st { i with wsRecv := WsRecv.timeout }).1).sentRaw ∧
    ((stepBridge st i).1).ptyBuf
      = ((stepBridge st { i with wsRecv := WsRecv.timeout }).1).ptyBuf := by
  obtain ⟨rp, hrp, hd, hpi, hrc, hlg⟩ := stepBridge_quiet st i hc hp hs
  rw [hm, handleMessage_text_resize rp s j i.writeErr i.ioctlErr hb hj ht,
    resizePty_packed rp _ _ i.ioctlErr r c hrow hcol, he] at hd
  rw [hd, hrp]
  simp [hpi, hrc, hlg]

/-- Claim C8, witness: the 40×100 resize frame with a failing ioctl. -/
theorem c8_resize_failure_nonfatal_witness :
    (stepBridge initBridge
        { quietIter with wsRecv := WsRecv.text resizeFrame40x100,
                         ioctlErr := true }).2 = none ∧
    ((stepBridge initBridge
        { quietIter with wsRecv := WsRecv.text resizeFrame40x100,
                         ioctlErr := true }).1).ptyInput = initBridge.ptyInput ∧
    ((stepBridge initBridge
        { quietIter with wsRecv := WsRecv.text resizeFrame40x100,
                         ioctlErr := true }).1).resizeCalls
      = initBridge.resizeCalls ++ [(40, 100, false)] ∧
    ((stepBridge initBridge
        { quietIter with wsRecv := WsRecv.text resizeFrame40x100,
                         ioctlErr := true }).1).logs
      = initBridge.logs ++ [LogEvent.resizeFailed] ∧
    ((stepBridge initBridge
        { quietIter with wsRecv := WsRecv.text resizeFrame40x100,
                         ioctlErr := true }).1).wsFrames
      = ((stepBridge initBridge { quietIter with wsRecv := WsRecv.timeout }).1).wsFrames ∧
    ((stepBridge initBridge
        { quietIter with wsRecv := WsRecv.text resizeFrame40x100,
                         ioctlErr := true }).1).sentRaw
      = ((stepBridge initBridge { quietIter with wsRecv := WsRecv.timeout }).1).sentRaw ∧
    ((stepBridge initBridge
        { quietIter with wsRecv := WsRecv.text resizeFrame40x100,
                         ioctlErr := true }).1).ptyBuf
      = ((stepBridge initBridge { quietIter with wsRecv := WsRecv.timeout }).1).ptyBuf :=
  c8_resize_failure_nonfatal initBridge _ resizeFrame40x100 _ 40 100
    rfl rfl rfl rfl rfl resizeFrame40x100_startsWith resizeFrame40x100_parse
    rfl rfl rfl

/-- A text frame that is valid JSON but not a resize instruction. -/
def jsonNonResizeFrame : String := "\x7b\"a\":1\x7d"

/-- Claim C2, counterexample: the claim says every inbound message that is
not a well-formed resize instruction — explicitly including text frames
that parse as valid JSON but are not a resize object — is written to the
terminal handle.  The frame `\x7b"a":1\x7d` parses as valid JSON, is not a
resize object, and the code then does nothing with it: nothing is written
to the terminal, no resize is dispatched — the message is silently
dropped. -/
theorem c2_counterexample :
    (stepBridge initBridge
        { quietIter with wsRecv := WsRecv.text jsonNonResizeFrame }).2 = none ∧
    ((stepBridge initBridge
        { quietIter with wsRecv := WsRecv.text jsonNonResizeFrame }).1).ptyInput
      = [] ∧
    ((stepBridge initBridge
        { quietIter with wsRecv := WsRecv.text jsonNonResizeFrame }).1).resizeCalls
      = [] :=
  ⟨rfl, rfl, rfl⟩

/-- Claim C2 (amended): on a quiet ACTIVE iteration with a working terminal
write, (a) every text frame that does not begin with a left brace, or that
begins with one but fails JSON parsing, is written to the terminal handle
as its UTF-8 bytes; (b) every binary frame is written verbatim; but (c) a
text frame that parses as valid JSON and is not a resize object is silently
dropped: the loop continues with neither a terminal write nor a resize
dispatch. -/
theorem c2_raw_fallback_except_json (st : BridgeState) (i : IterInput)
    (hc : i.childExited = false) (hp : i.ptyEvent = PtyEvent.quiet)
    (hs : i.sendErr = false) (hw : i.writeErr = false) :
    (∀ s : String, i.wsRecv = WsRecv.text s →
      (startsWithLbrace s = false ∨ jsonLoads s = none) →
      (stepBridge st i).2 = none ∧
      ((stepBridge st i).1).ptyInput = st.ptyInput ++ [encodeUtf8 s]) ∧
    (∀ bs : List Nat, i.wsRecv = WsRecv.binary bs →
      (stepBridge st i).2 = none ∧
      ((stepBridge st i).1).ptyInput = st.ptyInput ++ [bs]) ∧
    (∀ (s : String) (j : Json), i.wsRecv = WsRecv.text s →
      startsWithLbrace s = true → jsonLoads s = some j →
      isResizeTag (jGet j "type") = false →
      (stepBridge st i).2 = none ∧
      ((stepBridge st i).1).ptyInput = st.ptyInput ∧
      ((stepBridge st i).1).resizeCalls = st.resizeCalls) := by
  obtain ⟨rp, hrp, hd, hpi, hrc, hlg⟩ := stepBridge_quiet st i hc hp hs
  refine ⟨?_, ?_, ?_⟩
  · intro s hm hor
    rcases hor with hnb | hnp
    · rw [hm, handleMessage_text_nobrace rp s i.writeErr i.ioctlErr hnb,
        hw, ptyWrite_ok] at hd
      rw [hd]
      exact ⟨rfl, by simp [hpi]⟩
    · cases hbb : startsWithLbrace s with
      | false =>
        rw [hm, handleMessage_text_nobrace rp s i.writeErr i.ioctlErr hbb,
          hw, ptyWrite_ok] at hd
        rw [hd]
        exact ⟨rfl, by simp [hpi]⟩
      | true =>
        rw [hm, handleMessage_text_noparse rp s i.writeErr i.ioctlErr hbb hnp,
          hw, ptyWrite_ok] at hd
        rw [hd]
        exact ⟨rfl, by simp [hpi]⟩
  · intro bs hm
    rw [hm, handleMessage_binary, hw, ptyWrite_ok] at hd
    rw [hd]
    exact ⟨rfl, by simp [hpi]⟩
  · intro s j hm hbb hj ht
    rw [hm, handleMessage_text_nonresize rp s j i.writeErr i.ioctlErr hbb hj ht] at hd
    rw [hd]
    exact ⟨rfl, by simp [hpi], by simp [hrc]⟩

/-- Claim C2, witness: an ordinary keystroke frame is written through. -/
theorem c2_raw_fallback_except_json_witness :
    (stepBridge initBridge { quietIter with wsRecv := WsRecv.text "ls" }).2
      = none ∧
    ((stepBridge initBridge
        { quietIter with wsRecv := WsRecv.text "ls" }).1).ptyInput
      = initBridge.ptyInput ++ [encodeUtf8 "ls"] :=
  (c2_raw_fallback_except_json initBridge _ rfl rfl rfl rfl).1 "ls" rfl
    (Or.inl rfl)

/-- Claim C3, counterexample: the claim says a failed terminal write
transitions the loop to CLOSING.  On an iteration where the write of the
keystroke frame "x" raises `OSError`, the exception is caught by the
blanket `except Exception: pass` of the receive branch and the loop
continues — no exit, and the keystroke is lost. -/
theorem c3_counterexample :
    (stepBridge initBridge
        { quietIter with wsRecv := WsRecv.text "x", writeErr := true }).2
      = none ∧
    ((stepBridge initBridge
        { quietIter with wsRecv := WsRecv.text "x", writeErr := true }).1).ptyInput
      = [] :=
  ⟨rfl, rfl⟩

/-- Claim C3 (amended): an `OSError` raised by the write of inbound
keystroke data is swallowed by the receive branch's blanket exception
handler — the loop continues in ACTIVE and the data is silently lost —
whereas a read failure on the terminal handle does exit the loop
(CLOSING). -/
theorem c3_write_error_swallowed :
    (∀ (st : BridgeState) (i : IterInput), i.childExited = false →
        i.ptyEvent = PtyEvent.quiet → i.sendErr = false → i.writeErr = true →
        i.wsRecv ≠ WsRecv.closed →
        (stepBridge st i).2 = none ∧
        ((stepBridge st i).1).ptyInput = st.ptyInput) ∧
    (∀ (st : BridgeState) (i : IterInput), i.childExited = false →
        i.ptyEvent = PtyEvent.err →
        (stepBridge st i).2 = some ExitKind.ptyErr) := by
  constructor
  · intro st i hc hp hs hw hnc
    obtain ⟨rp, hrp, hd, hpi, hrc, hlg⟩ := stepBridge_quiet st i hc hp hs
    cases hm : i.wsRecv with
    | closed => exact absurd hm hnc
    | timeout =>
      rw [hm, handleMessage_timeout] at hd
      rw [hd]
      exact ⟨rfl, hpi⟩
    | binary bs =>
      rw [hm, handleMessage_binary, hw, ptyWrite_failed] at hd
      rw [hd]
      exact ⟨rfl, hpi⟩
    | text s =>
      cases hbb : startsWithLbrace s with
      | false =>
        rw [hm, handleMessage_text_nobrace rp s i.writeErr i.ioctlErr hbb,
          hw, ptyWrite_failed] at hd
        rw [hd]
        exact ⟨rfl, hpi⟩
      | true =>
        cases hj : jsonLoads s with
        | none =>
          rw [hm, handleMessage_text_noparse rp s i.writeErr i.ioctlErr hbb hj,
            hw, ptyWrite_failed] at hd
          rw [hd]
          exact ⟨rfl, hpi⟩
        | some j =>
          cases ht : isResizeTag (jGet j "type") with
          | false =>
            rw [hm, handleMessage_text_nonresize rp s j i.writeErr i.ioctlErr
              hbb hj ht] at hd
            rw [hd]
            exact ⟨rfl, hpi⟩
          | true =>
            rw [hm, handleMessage_text_resize rp s j i.writeErr i.ioctlErr
              hbb hj ht] at hd
            rw [hd]
            have hpre := resizePty_preserves rp ((jGet j "rows").getD (Json.jint 24))
              ((jGet j "cols").getD (Json.jint 80)) i.ioctlErr
            exact ⟨rfl, by rw [hpre.2.2.1, hpi]⟩
  · intro st i hc hp
    unfold stepBridge
    simp [hc, hp]

/-- Claim C3, witness: a failed write of "x" leaves the loop running with
nothing recorded, while a pty read error exits the loop. -/
theorem c3_write_error_swallowed_witness :
    ((stepBridge initBridge
        { quietIter with wsRecv := WsRecv.text "x", writeErr := true }).2
      = none ∧
     ((stepBridge initBridge
        { quietIter with wsRecv := WsRecv.text "x", writeErr := true }).1).ptyInput
      = initBridge.ptyInput) ∧
    (stepBridge initBridge { quietIter with ptyEvent := PtyEvent.err }).2
      = some ExitKind.ptyErr :=
  ⟨c3_write_error_swallowed.1 initBridge _ rfl rfl rfl rfl (by decide),
   c3_write_error_swallowed.2 initBridge _ rfl rfl⟩

end TerminalBridge
